import Mathlib

/-!
Verification of the excel-interviewer session lifecycle, catalog loader,
evaluator and persistence code, shallowly embedded in Lean.

JSON documents (the question catalog, the serialized session state and the
report transcript) are modelled by the `Json` type below.  Numbers written
with a fractional part are modelled as rationals; every numeral appearing in
the repository's data and in the claims is exactly representable.
-/

/-- A JSON / Python value as produced by `json.loads`.  Objects keep their
field order (Python dicts preserve insertion order). -/
inductive Json where
  | null : Json
  | bool (b : Bool) : Json
  | int (n : Int) : Json
  | float (q : ℚ) : Json
  | str (s : String) : Json
  | arr (xs : List Json) : Json
  | obj (fields : List (String × Json)) : Json

/-- The Python exception kinds distinguished by the repository's handlers. -/
inductive PyErr where
  | typeError
  | validationError
  | keyError
  | attributeError
deriving DecidableEq

/-- `fields[k]` / `fields.get(k)` on a decoded JSON object: first binding wins. -/
def getField (fields : List (String × Json)) (k : String) : Option Json :=
  (fields.find? (fun kv => kv.1 == k)).map (fun kv => kv.2)

/-- A table given as an ordered column-name to cell-list mapping, the shape of
`starting_data`, `solution_data` and `final_dataframe` in the source. -/
abbrev Table : Type := List (String × List Json)

/-- `app/core/models.py`, class `Question`: one interview task, as validated
by the Pydantic model. -/
structure Question where
  id : String
  topic : String
  difficulty : String
  task_description : String
  starting_data : Table
  solution_data : Table
  evaluation_criteria : String

/-- `app/core/models.py`, class `Evaluation`: the structured scoring output.
The Pydantic bounds `ge=1, le=5` on `score` are enforced by the decoder
`parseEvaluationModel` below, exactly where the source enforces them. -/
structure Evaluation where
  score : Int
  is_correct : Bool
  feedback : String
deriving DecidableEq

/-- One entry of the session dict's `user_answers` list, as appended in
`interview_screen` (`app/main.py`). -/
structure UserAnswer where
  question_id : String
  submitted_formula : String
  final_dataframe : Table
  is_state_correct : Bool

/-- An entry of the session dict's `evaluations` list.  The lifecycle appends
plain dicts (`ai_evaluation.model_dump()`), while `_deserialize_data`
re-hydrates stored entries into `Evaluation` model objects; both shapes carry
the same three fields and serialize identically. -/
inductive EvalEntry where
  | model (e : Evaluation)
  | dict (e : Evaluation)

/-- The fields of an `EvalEntry`, independent of dict/model shape. -/
def EvalEntry.val : EvalEntry → Evaluation
  | .model e => e
  | .dict e => e

/-- The session dict managed by `SessionManager` (`app/database/redis_db.py`)
and mutated by `app/main.py`.  `start_time` / `end_time` are `none` while the
corresponding key is absent from the dict. -/
structure SessionState where
  session_id : String
  current_question_index : Nat
  questions : List Question
  user_answers : List UserAnswer
  evaluations : List EvalEntry
  interview_started : Bool
  interview_finished : Bool
  start_time : Option String
  end_time : Option String

/-- A column-to-values table as a JSON object of arrays. -/
def tableToJson (t : Table) : Json :=
  .obj (t.map (fun kv => (kv.1, Json.arr kv.2)))

/-- `Question.model_dump()`: fields in declaration order. -/
def questionToJson (q : Question) : Json :=
  .obj [("id", .str q.id), ("topic", .str q.topic), ("difficulty", .str q.difficulty),
        ("task_description", .str q.task_description),
        ("starting_data", tableToJson q.starting_data),
        ("solution_data", tableToJson q.solution_data),
        ("evaluation_criteria", .str q.evaluation_criteria)]

/-- `Evaluation.model_dump()`: fields in declaration order. -/
def evaluationToJson (e : Evaluation) : Json :=
  .obj [("score", .int e.score), ("is_correct", .bool e.is_correct),
        ("feedback", .str e.feedback)]

/-- A `user_answers` entry in its stored dict shape (`app/main.py`, insertion
order of the appended dict). -/
def userAnswerToJson (a : UserAnswer) : Json :=
  .obj [("question_id", .str a.question_id),
        ("submitted_formula", .str a.submitted_formula),
        ("final_dataframe", tableToJson a.final_dataframe),
        ("is_state_correct", .bool a.is_state_correct)]

/-- Both evaluation shapes serialize to the same JSON object:
`json.dumps`'s `default=` hook calls `model_dump()` on model objects, and the
dict shape already is that dump. -/
def evalEntryToJson : EvalEntry → Json
  | .model e => evaluationToJson e
  | .dict e => evaluationToJson e

/-- A timestamp key that is present only once it has been set. -/
def optField (k : String) : Option String → List (String × Json)
  | some t => [(k, .str t)]
  | none => []

/-- `SessionManager._serialize_data` composed with `json.loads`: the stored
session document.  Key order is the dict's insertion order in
`create_new_session`, with `start_time` and `end_time` appended later by
`start_screen` / `interview_screen`. -/
def serializeState (s : SessionState) : Json :=
  .obj ([("session_id", .str s.session_id),
         ("current_question_index", .int s.current_question_index),
         ("questions", .arr (s.questions.map questionToJson)),
         ("user_answers", .arr (s.user_answers.map userAnswerToJson)),
         ("evaluations", .arr (s.evaluations.map evalEntryToJson)),
         ("interview_started", .bool s.interview_started),
         ("interview_finished", .bool s.interview_finished)]
        ++ optField "start_time" s.start_time
        ++ optField "end_time" s.end_time)

/-- Decode a required string field (Pydantic v2 `str` accepts only strings). -/
def parseStrField : Option Json → Except PyErr String
  | some (.str s) => .ok s
  | _ => .error .validationError

/-- Decode a required bool field (Pydantic v2 `bool`). -/
def parseBoolFieldE : Option Json → Except PyErr Bool
  | some (.bool b) => .ok b
  | _ => .error .validationError

/-- Validate the entries of a `Dict[str, List[Any]]` value left to right:
every value must be an array. -/
def parseTableEntries : List (String × Json) → Except PyErr Table
  | [] => .ok []
  | kv :: rest =>
      match kv.2 with
      | .arr xs =>
          match parseTableEntries rest with
          | .ok t => .ok ((kv.1, xs) :: t)
          | .error e => .error e
      | _ => .error .validationError

/-- Decode a `Dict[str, List[Any]]` field (`starting_data` / `solution_data`):
an object each of whose values is an array. -/
def parseTableField : Option Json → Except PyErr Table
  | some (.obj fields) => parseTableEntries fields
  | _ => .error .validationError

/-- `Question(**record)`: a non-mapping record raises `TypeError` (unpacking),
a mapping with a missing or wrongly typed field raises a Pydantic
`ValidationError`; extra keys are ignored (Pydantic v2 default). -/
def parseQuestion : Json → Except PyErr Question
  | .obj fields =>
      match parseStrField (getField fields "id"),
            parseStrField (getField fields "topic"),
            parseStrField (getField fields "difficulty"),
            parseStrField (getField fields "task_description"),
            parseTableField (getField fields "starting_data"),
            parseTableField (getField fields "solution_data"),
            parseStrField (getField fields "evaluation_criteria") with
      | .ok i, .ok top, .ok diff, .ok desc, .ok sd, .ok sol, .ok crit =>
          .ok ⟨i, top, diff, desc, sd, sol, crit⟩
      | _, _, _, _, _, _, _ => .error .validationError
  | _ => .error .typeError

/-- Decode the `score` field: Pydantic v2 `int` accepts integers and
integral floats; the `ge=1, le=5` bound is checked by the caller. -/
def parseScoreField : Option Json → Except PyErr Int
  | some (.int n) => .ok n
  | some (.float q) => if q.den = 1 then .ok q.num else .error .validationError
  | _ => .error .validationError

/-- `Evaluation(**data)`: Pydantic validation of the evaluator output,
including the `ge=1, le=5` bound on `score`
(`app/core/models.py`, class `Evaluation`). -/
def parseEvaluationModel : Json → Except PyErr Evaluation
  | .obj fields =>
      match parseScoreField (getField fields "score"),
            parseBoolFieldE (getField fields "is_correct"),
            parseStrField (getField fields "feedback") with
      | .ok n, .ok b, .ok fb =>
          if 1 ≤ n ∧ n ≤ 5 then .ok ⟨n, b, fb⟩ else .error .validationError
      | _, _, _ => .error .validationError
  | _ => .error .typeError

/-- `[Question(**q_data) for q_data in questions_data]`: records are
validated left to right and the first exception aborts the comprehension. -/
def parseRecords : List Json → Except PyErr (List Question)
  | [] => .ok []
  | r :: rs =>
      match parseQuestion r with
      | .error e => .error e
      | .ok q =>
          match parseRecords rs with
          | .error e => .error e
          | .ok qs => .ok (q :: qs)

/-- The state of the catalog source `app/static/questions.json` as seen by
`load_questions`: the file may be missing (`FileNotFoundError`), hold invalid
JSON (`json.JSONDecodeError`), or parse to a JSON document. -/
inductive CatalogSource where
  | missing
  | invalidJson
  | parsed (doc : Json)

/-- `load_questions` (`app/utils/helpers.py`): `FileNotFoundError`,
`JSONDecodeError` and `TypeError` are caught and yield `[]`; a Pydantic
`ValidationError` raised by a record propagates to the caller.  Iterating a
non-list document feeds non-mapping items (dict keys, string characters) to
`Question(**...)`, or raises `TypeError` directly — all caught, yielding `[]`. -/
def loadQuestions : CatalogSource → Except PyErr (List Question)
  | .missing => .ok []
  | .invalidJson => .ok []
  | .parsed (.arr records) =>
      match parseRecords records with
      | .ok qs => .ok qs
      | .error .typeError => .ok []
      | .error e => .error e
  | .parsed _ => .ok []

/-- The fixed fallback result returned by `ExcelAgent.evaluate_formula` when
the evaluation chain raises (`app/core/agent.py`). -/
def sentinelEvaluation : Evaluation :=
  { score := 1, is_correct := false,
    feedback := "An error occurred while evaluating the response. Please ensure the formula is valid or try again." }

/-- Behaviour of one `self.chain.invoke(...)` call, abstracting the backing
model: it either raises (model unavailable at call time, timeout, output that
the JSON parser rejects) or hands back the parsed JSON value. -/
inductive ChainOutcome where
  | raises
  | returns (v : Json)

/-- `evaluation_result['score']` in the success-path log line: subscripting a
non-dict raises `TypeError`, a dict without the key raises `KeyError`. -/
def subscriptScore : Json → Except PyErr Json
  | .obj fields =>
      match getField fields "score" with
      | some v => .ok v
      | none => .error .keyError
  | _ => .error .typeError

/-- `ExcelAgent.evaluate_formula` (`app/core/agent.py`): returns `none` when
the chain was never initialized (`ChatOllama` construction failed), otherwise
wraps every exception of the invoke / log / validate sequence into the
sentinel result.  `question` and `formula` only feed the prompt and do not
influence the control flow modelled here. -/
def evaluateFormula (chainInitialized : Bool) (outcome : ChainOutcome)
    (_question : Question) (_formula : String) : Option Evaluation :=
  if chainInitialized then
    match outcome with
    | .raises => some sentinelEvaluation
    | .returns v =>
        match subscriptScore v with
        | .error _ => some sentinelEvaluation
        | .ok _ =>
            match parseEvaluationModel v with
            | .ok e => some e
            | .error _ => some sentinelEvaluation
  else none

/-- Pandas column dtypes arising from the catalog's cell kinds. -/
inductive Dtype where
  | int64
  | float64
  | boolCol
  | objectCol
deriving DecidableEq

/-- Cell kind tests used by pandas dtype inference. -/
def isIntCell : Json → Bool
  | .int _ => true
  | _ => false

/-- Numeric cells (integers or floats). -/
def isNumCell : Json → Bool
  | .int _ => true
  | .float _ => true
  | _ => false

/-- Boolean cells. -/
def isBoolCell : Json → Bool
  | .bool _ => true
  | _ => false

/-- Numeric upcast performed when a column of mixed ints and floats gets
dtype `float64`. -/
def toFloatCell : Json → Json
  | .int n => .float (n : ℚ)
  | c => c

/-- `pd.DataFrame(dict)` column dtype inference for the cell kinds the
catalog uses: an all-int column is `int64`, a numeric column with a float is
`float64` (ints upcast), an all-bool column is `bool`, anything else is kept
as `object`. -/
def inferColumn (cells : List Json) : Dtype × List Json :=
  if cells.all isIntCell then (.int64, cells)
  else if cells.all isNumCell then (.float64, cells.map toFloatCell)
  else if cells.all isBoolCell then (.boolCol, cells)
  else (.objectCol, cells)

/-- `pd.DataFrame(table)`: ordered columns with inferred dtypes. -/
def mkDF (t : Table) : List (String × Dtype × List Json) :=
  t.map (fun c => (c.1, inferColumn c.2))

/-- Python `==` on cell values: numeric comparison across int/float, ordered
structural comparison elsewhere (dicts are compared on the ordered
association-list representation used throughout this model). -/
def pyCellEq : Json → Json → Bool
  | .null, .null => true
  | .bool a, .bool b => a == b
  | .int a, .int b => a == b
  | .float a, .float b => decide (a = b)
  | .int a, .float b => decide ((a : ℚ) = b)
  | .float a, .int b => decide (a = (b : ℚ))
  | .str a, .str b => a == b
  | .arr [], .arr [] => true
  | .arr (x :: xs), .arr (y :: ys) => pyCellEq x y && pyCellEq (.arr xs) (.arr ys)
  | .obj [], .obj [] => true
  | .obj ((k, v) :: xs), .obj ((l, w) :: ys) =>
      k == l && pyCellEq v w && pyCellEq (.obj xs) (.obj ys)
  | _, _ => false

/-- Elementwise comparison of two cell lists of equal length. -/
def cellsEq (xs ys : List Json) : Bool :=
  xs.length == ys.length && (xs.zip ys).all (fun p => pyCellEq p.1 p.2)

/-- `DataFrame.equals`: same shape, same column labels in order, same column
dtypes, and elementwise equal values. -/
def dfEquals (a b : List (String × Dtype × List Json)) : Bool :=
  a.length == b.length &&
  (a.zip b).all (fun p =>
    p.1.1 == p.2.1 && p.1.2.1 == p.2.2.1 && cellsEq p.1.2.2 p.2.2.2)

/-- `solution_df.equals(edited_df)` as computed on submit
(`app/main.py`, `interview_screen`). -/
def isStateCorrect (solution edited : Table) : Bool :=
  dfEquals (mkDF solution) (mkDF edited)

/-- The equality the spec's words describe for the state check: same column
names in the same order and every cell value exactly equal (Python `==`,
no dtype sensitivity).  Stated from the spec for comparison with
`isStateCorrect`; not a translation of repository code. -/
def specTableEq (a b : Table) : Bool :=
  a.length == b.length &&
  (a.zip b).all (fun p => p.1.1 == p.2.1 && cellsEq p.1.2 p.2.2)

/-- `SessionManager.create_new_session` (`app/database/redis_db.py`): the
initial session dict (also immediately stored). -/
def createNewSession (sid : String) (qs : List Question) : SessionState :=
  { session_id := sid, current_question_index := 0, questions := qs,
    user_answers := [], evaluations := [],
    interview_started := false, interview_finished := false,
    start_time := none, end_time := none }

/-- The state stored by `start_screen` (`app/main.py`): the fresh session
with `interview_started` set and `start_time` stamped. -/
def startState (sid : String) (qs : List Question) (t : String) : SessionState :=
  { createNewSession sid qs with interview_started := true, start_time := some t }

/-- The submit handler of `interview_screen` (`app/main.py`): record the
answer and the evaluation (as a plain dict), advance the index, and mark the
interview finished (stamping `end_time`) once the index reaches the number of
questions.  Indexing `questions[q_index]` out of range raises before any
mutation, leaving the stored state unchanged. -/
def submitStep (s : SessionState) (formula : String) (edited : Table)
    (ev : Evaluation) (now : String) : SessionState :=
  match s.questions[s.current_question_index]? with
  | none => s
  | some q =>
      let answers := s.user_answers ++
        [{ question_id := q.id, submitted_formula := formula,
           final_dataframe := edited,
           is_state_correct := isStateCorrect q.solution_data edited }]
      let evals := s.evaluations ++ [EvalEntry.dict ev]
      let idx := s.current_question_index + 1
      if s.questions.length ≤ idx then
        { s with user_answers := answers, evaluations := evals,
                 current_question_index := idx,
                 interview_finished := true, end_time := some now }
      else
        { s with user_answers := answers, evaluations := evals,
                 current_question_index := idx }

/-- `_deserialize_data`'s effect on a round-tripped state: stored evaluation
dicts come back as `Evaluation` model objects; everything else is unchanged. -/
def rehydrate (s : SessionState) : SessionState :=
  { s with evaluations := s.evaluations.map (fun e => .model e.val) }

/-- The session states the lifecycle produces and stores: the fresh session,
the started session, submit steps taken on a started unfinished session whose
question index is in range (out of range, `interview_screen` raises before
mutating), and the store round-trip re-hydration between requests.  An
appended evaluation is an `Evaluation` model instance produced by the agent,
so its score satisfies the Pydantic bounds. -/
inductive Reachable : SessionState → Prop
  | created (sid : String) (qs : List Question) :
      Reachable (createNewSession sid qs)
  | started (sid : String) (qs : List Question) (t : String) :
      Reachable (startState sid qs t)
  | submitted (s : SessionState) (formula : String) (edited : Table)
      (ev : Evaluation) (now : String) :
      Reachable s →
      s.interview_started = true →
      s.interview_finished = false →
      s.current_question_index < s.questions.length →
      1 ≤ ev.score → ev.score ≤ 5 →
      Reachable (submitStep s formula edited ev now)
  | rehydrated (s : SessionState) :
      Reachable s → Reachable (rehydrate s)

/-- `start_screen`'s button handler (`app/main.py`): load the catalog, then
create and store the started session.  An exception from `load_questions`
propagates and no session is created. -/
def startScreen (sid : String) (src : CatalogSource) (t : String) :
    Except PyErr SessionState :=
  match loadQuestions src with
  | .error e => .error e
  | .ok qs => .ok (startState sid qs t)

/-- Decode a string-valued entry of the stored session document. -/
def readStr : Option Json → Option String
  | some (.str s) => some s
  | _ => none

/-- Decode the non-negative integer `current_question_index`. -/
def readNat : Option Json → Option Nat
  | some (.int n) => if 0 ≤ n then some n.toNat else none
  | _ => none

/-- Decode a boolean entry of the stored session document. -/
def readBool : Option Json → Option Bool
  | some (.bool b) => some b
  | _ => none

/-- Decode an optional timestamp entry: an absent key is a timestamp that has
not been set yet. -/
def readOptTime : Option Json → Option (Option String)
  | none => some none
  | some (.str t) => some (some t)
  | some _ => none

/-- Read the entries of a stored table dict left to right. -/
def readTableEntries : List (String × Json) → Option Table
  | [] => some []
  | kv :: rest =>
      match kv.2 with
      | .arr xs =>
          match readTableEntries rest with
          | some t => some ((kv.1, xs) :: t)
          | none => none
      | _ => none

/-- Decode a stored table (object of arrays). -/
def readTable : Json → Option Table
  | .obj fields => readTableEntries fields
  | _ => none

/-- Decode a stored `user_answers` entry.  `_deserialize_data` leaves these
as plain dicts; this reads the dict back into its typed shape. -/
def readUserAnswer : Json → Option UserAnswer
  | .obj fields =>
      match readStr (getField fields "question_id"),
            readStr (getField fields "submitted_formula"),
            (getField fields "final_dataframe").bind readTable,
            readBool (getField fields "is_state_correct") with
      | some qid, some f, some t, some b => some ⟨qid, f, t, b⟩
      | _, _, _, _ => none
  | _ => none

/-- Decode the elements of a stored list left to right, failing on the first
element the decoder rejects (a list comprehension aborted by an exception). -/
def decodeList {α : Type} (p : Json → Option α) : List Json → Option (List α)
  | [] => some []
  | x :: xs =>
      match p x with
      | some a =>
          match decodeList p xs with
          | some l => some (a :: l)
          | none => none
      | none => none

/-- `[Question(**q) for q in data['questions']]` in `_deserialize_data`. -/
def decodeQuestions : Json → Option (List Question)
  | .arr qs => decodeList (fun q => (parseQuestion q).toOption) qs
  | _ => none

/-- The stored `user_answers` list read back. -/
def decodeAnswers : Json → Option (List UserAnswer)
  | .arr xs => decodeList readUserAnswer xs
  | _ => none

/-- `[Evaluation(**e) for e in data['evaluations']]` in `_deserialize_data`:
stored dicts come back as model objects. -/
def decodeEvaluations : Json → Option (List EvalEntry)
  | .arr es => (decodeList (fun e => (parseEvaluationModel e).toOption) es).map
      (fun l => l.map EvalEntry.model)
  | _ => none

/-- `json.loads` composed with `_deserialize_data`
(`app/database/redis_db.py`): decode the stored session document back into
the typed session state, re-hydrating `questions` and `evaluations` into
model objects.  `none` where the source would raise while re-hydrating (or
hand back a document of a shape the lifecycle cannot use). -/
def deserializeState (j : Json) : Option SessionState :=
  match j with
  | .obj fields =>
      match readStr (getField fields "session_id"),
            readNat (getField fields "current_question_index"),
            (getField fields "questions").bind decodeQuestions,
            (getField fields "user_answers").bind decodeAnswers,
            (getField fields "evaluations").bind decodeEvaluations,
            readBool (getField fields "interview_started"),
            readBool (getField fields "interview_finished"),
            readOptTime (getField fields "start_time"),
            readOptTime (getField fields "end_time") with
      | some sid, some idx, some qs, some ans, some evs, some st, some fin,
        some t0, some t1 =>
          some ⟨sid, idx, qs, ans, evs, st, fin, t0, t1⟩
      | _, _, _, _, _, _, _, _, _ => none
  | _ => none

/-- One row of the `interview_results` table
(`app/database/postgres_db.py`, `init_db`).  `final_score` is modelled as an
exact rational. -/
structure Row where
  session_id : String
  start_time : Option String
  end_time : String
  final_score : ℚ
  feedback_summary : String
  full_transcript : Json

/-- The `INSERT ... ON CONFLICT (session_id) DO UPDATE SET ...` statement of
`save_interview_report`: on a key conflict it updates `end_time`,
`final_score`, `feedback_summary` and `full_transcript` from the excluded
row — `start_time` is not in the update list and keeps its stored value. -/
def upsertReport (table : List Row) (r : Row) : List Row :=
  if table.any (fun row => row.session_id == r.session_id) then
    table.map (fun row =>
      if row.session_id == r.session_id then
        { row with end_time := r.end_time, final_score := r.final_score,
                   feedback_summary := r.feedback_summary,
                   full_transcript := r.full_transcript }
      else row)
  else table ++ [r]

/-- `e.get('score', 0)` over the state's evaluations list: dict entries have
`.get`, re-hydrated `Evaluation` model objects do not and raise
`AttributeError`. -/
def evalGetScore : EvalEntry → Except PyErr Int
  | .dict e => .ok e.score
  | .model _ => .error .attributeError

/-- `e.get('feedback', '')` over the state's evaluations list. -/
def evalGetFeedback : EvalEntry → Except PyErr String
  | .dict e => .ok e.feedback
  | .model _ => .error .attributeError

/-- `json.dumps(session_state)` with no `default=` hook: raises `TypeError`
as soon as the state holds a Pydantic model object (every re-hydrated
`Question`, every re-hydrated `Evaluation`). -/
def jsonDumpsStrict (s : SessionState) : Except PyErr Json :=
  if s.questions.isEmpty ∧ s.evaluations.all (fun e =>
      match e with | .dict _ => true | .model _ => false) then
    .ok (serializeState s)
  else .error .typeError

/-- `save_interview_report` (`app/database/postgres_db.py`): derive the final
score (mean of the evaluation scores, `0.0` if none) and the bullet-list
feedback summary, then write a row whose `end_time` is a fresh
`datetime.now().astimezone()` timestamp (`now`), not the state's recorded
`end_time`.  Only `psycopg2` errors are caught, so the `AttributeError` /
`TypeError` raised while deriving the parameters propagates. -/
def saveInterviewReport (s : SessionState) (now : String) :
    Except PyErr Row := do
  let scores ← s.evaluations.mapM evalGetScore
  let final_score : ℚ :=
    if scores.length = 0 then 0 else (scores.sum : ℚ) / (scores.length : ℚ)
  let feedbacks ← s.evaluations.mapM evalGetFeedback
  let feedback_summary :=
    String.intercalate "\n" (feedbacks.map (fun fb => "- " ++ fb))
  let transcript ← jsonDumpsStrict s
  .ok { session_id := s.session_id, start_time := s.start_time,
        end_time := now, final_score := final_score,
        feedback_summary := feedback_summary, full_transcript := transcript }

/-- A concrete catalog task used to instantiate the theorems below. -/
def exampleQuestion : Question :=
  { id := "q1", topic := "Formulas and Functions", difficulty := "Easy",
    task_description := "Add a total row to column A.",
    starting_data := [("A", [Json.int 1, Json.int 2, Json.int 3])],
    solution_data := [("A", [Json.int 1, Json.int 2, Json.int 3, Json.int 6])],
    evaluation_criteria := "The formula should use SUM." }

/-- A concrete agent evaluation used to instantiate the theorems below. -/
def exampleEvaluation : Evaluation :=
  { score := 4, is_correct := true, feedback := "Good use of SUM." }

/-- A concrete report row for session `s1`. -/
def exampleReportRow1 : Row :=
  { session_id := "s1", start_time := some "ta", end_time := "tb",
    final_score := 3, feedback_summary := "- ok", full_transcript := Json.null }

/-- A second report for session `s1` with every field updated. -/
def exampleReportRow2 : Row :=
  { session_id := "s1", start_time := some "tc", end_time := "td",
    final_score := 5, feedback_summary := "- better", full_transcript := Json.null }

/-- A successful record parse keeps every record: no shortening. -/
theorem parseRecords_ok_length (rs : List Json) (qs : List Question)
    (h : parseRecords rs = .ok qs) : qs.length = rs.length := by
  induction rs generalizing qs with
  | nil =>
      simp only [parseRecords] at h
      cases h
      rfl
  | cons r rest ih =>
      simp only [parseRecords] at h
      cases hq : parseQuestion r with
      | error e => rw [hq] at h; cases h
      | ok q =>
          rw [hq] at h
          cases hr : parseRecords rest with
          | error e => rw [hr] at h; cases h
          | ok qs2 =>
              rw [hr] at h
              cases h
              simp [ih qs2 hr]

/-- Claim C9 (confirmed): `load_questions` treats failure modes
asymmetrically — a missing file, invalid JSON, a non-list document or a
`TypeError` while unpacking a record all yield `[]` without raising, while a
record failing Pydantic field validation makes the validation error propagate
uncaught to the caller. -/
theorem c9_load_questions_asymmetry :
    loadQuestions .missing = .ok [] ∧
    loadQuestions .invalidJson = .ok [] ∧
    (∀ doc : Json, (∀ rs, doc ≠ .arr rs) → loadQuestions (.parsed doc) = .ok []) ∧
    (∀ rs, parseRecords rs = .error .typeError →
      loadQuestions (.parsed (.arr rs)) = .ok []) ∧
    (∀ rs, parseRecords rs = .error .validationError →
      loadQuestions (.parsed (.arr rs)) = .error .validationError) := by
  refine ⟨rfl, rfl, ?_, ?_, ?_⟩
  · intro doc h
    cases doc <;> first | rfl | exact absurd rfl (h _)
  · intro rs h
    simp [loadQuestions, h]
  · intro rs h
    simp [loadQuestions, h]

/-- Witness for C9: a list with a non-mapping record loads as `[]`; a list
with a mapping that fails field validation propagates the validation error. -/
theorem c9_load_questions_asymmetry_witness :
    loadQuestions (.parsed (.arr [Json.int 3])) = .ok [] ∧
    loadQuestions (.parsed (.arr [Json.obj []])) = .error .validationError :=
  ⟨c9_load_questions_asymmetry.2.2.2.1 [Json.int 3] rfl,
   c9_load_questions_asymmetry.2.2.2.2 [Json.obj []] rfl⟩

/-- Counterexample to claim C3: with the catalog source missing,
`load_questions` does not fail with a catalog error — it returns the empty
list, and the start transition then creates a zero-question session. -/
theorem c3_counterexample :
    loadQuestions .missing = .ok [] ∧
    startScreen "s1" .missing "t0" = .ok (startState "s1" [] "t0") :=
  ⟨rfl, rfl⟩

/-- Claim C3 (corrected): if any single record fails field validation the
whole load fails (the validation error propagates and no session is
created), and a successful nonempty load always returns every record of the
source — never a shortened sequence; but a missing or malformed source does
not fail: it loads as the empty catalog and a zero-question session is
created. -/
theorem c3_catalog_failfast_amended :
    (∀ sid t rs, parseRecords rs = .error .validationError →
      startScreen sid (.parsed (.arr rs)) t = .error .validationError) ∧
    (∀ src qs, loadQuestions src = .ok qs → qs ≠ [] →
      ∃ rs, src = .parsed (.arr rs) ∧ qs.length = rs.length ∧
        parseRecords rs = .ok qs) ∧
    (∀ sid t, startScreen sid .missing t = .ok (startState sid [] t)) := by
  refine ⟨?_, ?_, fun sid t => rfl⟩
  · intro sid t rs h
    simp [startScreen, loadQuestions, h]
  · intro src qs h hne
    cases src with
    | missing => cases h; exact absurd rfl hne
    | invalidJson => cases h; exact absurd rfl hne
    | parsed doc =>
        cases doc with
        | arr rs =>
            refine ⟨rs, rfl, ?_⟩
            simp only [loadQuestions] at h
            cases hpr : parseRecords rs with
            | ok qs2 =>
                rw [hpr] at h
                cases h
                exact ⟨parseRecords_ok_length rs qs hpr, rfl⟩
            | error e =>
                rw [hpr] at h
                cases e <;> simp_all
        | null => cases h; exact absurd rfl hne
        | bool b => cases h; exact absurd rfl hne
        | int n => cases h; exact absurd rfl hne
        | float q => cases h; exact absurd rfl hne
        | str s => cases h; exact absurd rfl hne
        | obj fields => cases h; exact absurd rfl hne

/-- Witness for the amended C3: one mapping record with missing fields makes
the start transition fail with the propagated validation error, and a
missing source yields a started zero-question session. -/
theorem c3_catalog_failfast_amended_witness :
    startScreen "s2" (.parsed (.arr [Json.obj []])) "t1" =
      .error .validationError ∧
    startScreen "s3" .missing "t2" = .ok (startState "s3" [] "t2") :=
  ⟨c3_catalog_failfast_amended.1 "s2" "t1" [Json.obj []] rfl,
   c3_catalog_failfast_amended.2.2 "s3" "t2"⟩

/-- Counterexample to claim C2: when `ChatOllama` construction failed at
startup the evaluation chain is `None`, and `evaluate_formula` returns the
absent result `None` instead of the sentinel — "model unavailable" is not
converted to the sentinel on this path. -/
theorem c2_counterexample :
    evaluateFormula false .raises exampleQuestion "=SUM(A1:A3)" = none := rfl

/-- Claim C2 (corrected): `evaluate_formula` never raises past its boundary.
When the evaluation chain is initialized it always returns a result, with
every invocation failure (model error, timeout, unparseable or invalid
output) converted to the fixed sentinel; but when the chain failed to
initialize it returns the absent result `None`, not the sentinel. -/
theorem c2_evaluator_fallback_amended :
    (∀ outcome q f, ∃ e, evaluateFormula true outcome q f = some e) ∧
    (∀ q f, evaluateFormula true .raises q f = some sentinelEvaluation) ∧
    (∀ v q f er, parseEvaluationModel v = .error er →
      evaluateFormula true (.returns v) q f = some sentinelEvaluation) ∧
    (∀ outcome q f, evaluateFormula false outcome q f = none) := by
  refine ⟨?_, fun q f => rfl, ?_, fun outcome q f => rfl⟩
  · intro outcome q f
    cases outcome with
    | raises => exact ⟨sentinelEvaluation, rfl⟩
    | returns v =>
        cases hs : subscriptScore v with
        | error er => exact ⟨sentinelEvaluation, by simp [evaluateFormula, hs]⟩
        | ok w =>
            cases hp : parseEvaluationModel v with
            | ok e => exact ⟨e, by simp [evaluateFormula, hs, hp]⟩
            | error er =>
                exact ⟨sentinelEvaluation, by simp [evaluateFormula, hs, hp]⟩
  · intro v q f er hp
    cases hs : subscriptScore v with
    | error e2 => simp [evaluateFormula, hs]
    | ok w => simp [evaluateFormula, hs, hp]

/-- Witness for the amended C2: an unparseable model output yields the
sentinel when the chain exists, and `None` when the chain is absent. -/
theorem c2_evaluator_fallback_amended_witness :
    evaluateFormula true (.returns (Json.str "not json")) exampleQuestion
      "=A1" = some sentinelEvaluation ∧
    evaluateFormula false .raises exampleQuestion "=A1" = none :=
  ⟨c2_evaluator_fallback_amended.2.2.1 (Json.str "not json") exampleQuestion
      "=A1" PyErr.typeError rfl,
   c2_evaluator_fallback_amended.2.2.2 .raises exampleQuestion "=A1"⟩

/-- A value accepted by the `Evaluation` validator satisfies the Pydantic
score bounds. -/
theorem parseEvaluationModel_score_bounds (v : Json) (e : Evaluation)
    (h : parseEvaluationModel v = .ok e) : 1 ≤ e.score ∧ e.score ≤ 5 := by
  cases v <;> simp only [parseEvaluationModel] at h <;> try cases h
  split at h
  next n b fb hn hb hfb =>
    by_cases hc : 1 ≤ n ∧ n ≤ 5
    · rw [if_pos hc] at h
      cases h
      exact hc
    · rw [if_neg hc] at h
      cases h
  next => cases h

/-- A model response whose `score` lies outside `[1, 5]` fails the Pydantic
bound check. -/
theorem parseEvaluationModel_oob (n : Int) (b : Bool) (fb : String)
    (h : ¬ (1 ≤ n ∧ n ≤ 5)) :
    parseEvaluationModel (.obj [("score", .int n), ("is_correct", .bool b),
      ("feedback", .str fb)]) = .error .validationError := by
  show (if 1 ≤ n ∧ n ≤ 5 then Except.ok (⟨n, b, fb⟩ : Evaluation)
        else Except.error PyErr.validationError) = Except.error PyErr.validationError
  exact if_neg h

/-- Claim C10 (confirmed): every `Evaluation` that `evaluate_formula`
returns — the sentinel included — has an integer score in `[1, 5]`, and a
model response with an out-of-range score fails validation and is converted
to the sentinel rather than returned. -/
theorem c10_score_range :
    (∀ init outcome q f e, evaluateFormula init outcome q f = some e →
      1 ≤ e.score ∧ e.score ≤ 5) ∧
    (∀ q f n b fb, n < 1 ∨ 5 < n →
      evaluateFormula true (.returns (.obj [("score", .int n),
        ("is_correct", .bool b), ("feedback", .str fb)])) q f =
        some sentinelEvaluation) := by
  constructor
  · intro init outcome q f e h
    cases init with
    | false => simp [evaluateFormula] at h
    | true =>
        cases outcome with
        | raises =>
            simp [evaluateFormula] at h
            simp [← h, sentinelEvaluation]
        | returns v =>
            cases hs : subscriptScore v with
            | error er =>
                simp [evaluateFormula, hs] at h
                simp [← h, sentinelEvaluation]
            | ok w =>
                cases hp : parseEvaluationModel v with
                | ok e2 =>
                    simp [evaluateFormula, hs, hp] at h
                    rw [← h]
                    exact parseEvaluationModel_score_bounds v e2 hp
                | error er =>
                    simp [evaluateFormula, hs, hp] at h
                    simp [← h, sentinelEvaluation]
  · intro q f n b fb h
    have hp := parseEvaluationModel_oob n b fb (by omega)
    cases hs : subscriptScore (Json.obj [("score", .int n),
        ("is_correct", .bool b), ("feedback", .str fb)]) with
    | error er => simp [evaluateFormula, hs]
    | ok w => simp [evaluateFormula, hs, hp]

/-- Witness for C10: the sentinel's score is in range, and a response scored
7 comes back as the sentinel. -/
theorem c10_score_range_witness :
    (1 ≤ sentinelEvaluation.score ∧ sentinelEvaluation.score ≤ 5) ∧
    evaluateFormula true (.returns (.obj [("score", .int 7),
      ("is_correct", .bool true), ("feedback", .str "ok")]))
      exampleQuestion "=A1" = some sentinelEvaluation :=
  ⟨c10_score_range.1 true .raises exampleQuestion "=A1" sentinelEvaluation rfl,
   c10_score_range.2 exampleQuestion "=A1" 7 true "ok" (by omega)⟩

/-- Upserting a fresh session identifier inserts the row. -/
theorem upsertReport_fresh (t : List Row) (r : Row)
    (h : ∀ row ∈ t, row.session_id ≠ r.session_id) :
    upsertReport t r = t ++ [r] := by
  have hany : t.any (fun row => row.session_id == r.session_id) = false := by
    simp only [List.any_eq_false, beq_iff_eq]
    exact h
  simp [upsertReport, hany]

/-- Counterexample to claim C6: after two upserts for session `s1`, the
single remaining row keeps the first call's `start_time`, not the second
call's — `start_time` is missing from the `DO UPDATE SET` list. -/
theorem c6_counterexample :
    (upsertReport (upsertReport [] exampleReportRow1) exampleReportRow2).map
      Row.start_time = [exampleReportRow1.start_time] ∧
    exampleReportRow1.start_time ≠ exampleReportRow2.start_time := by
  refine ⟨rfl, ?_⟩
  simp [exampleReportRow1, exampleReportRow2]

/-- Claim C6 (corrected): two upserts with the same session identifier leave
exactly one row for it — rows are never duplicated — and that row carries the
second call's `end_time`, `final_score`, `feedback_summary` and
`full_transcript`; `start_time`, however, keeps the value from the first
call, because the conflict branch does not update it. -/
theorem c6_upsert_amended (t : List Row) (r1 r2 : Row)
    (hid : r1.session_id = r2.session_id)
    (hfresh : ∀ row ∈ t, row.session_id ≠ r1.session_id) :
    upsertReport (upsertReport t r1) r2 =
      t ++ [{ r1 with
                end_time := r2.end_time,
                final_score := r2.final_score,
                feedback_summary := r2.feedback_summary,
                full_transcript := r2.full_transcript }] := by
  rw [upsertReport_fresh t r1 hfresh]
  have hany : (t ++ [r1]).any
      (fun row => row.session_id == r2.session_id) = true := by
    simp [List.any_append, hid]
  simp only [upsertReport, hany, if_true, List.map_append]
  congr 1
  · calc t.map (fun row => if row.session_id == r2.session_id then
          { row with
              end_time := r2.end_time,
              final_score := r2.final_score,
              feedback_summary := r2.feedback_summary,
              full_transcript := r2.full_transcript } else row)
        = t.map id := by
          apply List.map_congr_left
          intro row hrow
          have : (row.session_id == r2.session_id) = false := by
            simp [beq_iff_eq, hid ▸ hfresh row hrow]
          simp [this]
      _ = t := List.map_id t
  · simp [hid]

/-- Witness for the amended C6: starting from an empty table, two reports
for `s1` produce one row carrying the second `final_score` and `end_time`
but the first `start_time`. -/
theorem c6_upsert_amended_witness :
    upsertReport (upsertReport [] exampleReportRow1) exampleReportRow2 =
      [{ exampleReportRow1 with
           end_time := exampleReportRow2.end_time,
           final_score := exampleReportRow2.final_score,
           feedback_summary := exampleReportRow2.feedback_summary,
           full_transcript := exampleReportRow2.full_transcript }] :=
  c6_upsert_amended [] exampleReportRow1 exampleReportRow2 rfl
    (by intro row hrow; cases hrow)

/-- Counterexample to claim C1: the session created over an empty catalog
(exactly what `create_new_session` receives when `load_questions` returns
`[]`) has `current_question_index = len(questions) = 0` while
`interview_finished` is false, so the claimed "if and only if" fails. -/
theorem c1_counterexample :
    Reachable (createNewSession "c0" []) ∧
    (createNewSession "c0" []).current_question_index =
      (createNewSession "c0" []).questions.length ∧
    (createNewSession "c0" []).interview_finished = false :=
  ⟨Reachable.created "c0" [], rfl, rfl⟩

/-- Claim C1 (corrected): every reachable session state has
`len(user_answers) = len(evaluations) = current_question_index`, and
`interview_finished` holds exactly when the index equals the number of
questions and the question list is nonempty; over an empty catalog the
session is never marked finished even though index and length coincide. -/
theorem c1_lifecycle_invariant_amended (s : SessionState) (h : Reachable s) :
    s.user_answers.length = s.current_question_index ∧
    s.evaluations.length = s.current_question_index ∧
    (s.interview_finished = true ↔
      (s.current_question_index = s.questions.length ∧
       s.questions.length ≠ 0)) := by
  induction h with
  | created sid qs =>
      refine ⟨rfl, rfl, ?_⟩
      simp only [createNewSession]
      constructor
      · intro hfalse; cases hfalse
      · intro hc; omega
  | started sid qs t =>
      refine ⟨rfl, rfl, ?_⟩
      simp only [startState, createNewSession]
      constructor
      · intro hfalse; cases hfalse
      · intro hc; omega
  | submitted s formula edited ev now hr hst hfin hidx h1 h5 ih =>
      obtain ⟨ha, he, _⟩ := ih
      have hq : s.questions[s.current_question_index]? =
          some s.questions[s.current_question_index] :=
        List.getElem?_eq_getElem hidx
      simp only [submitStep, hq]
      by_cases hend : s.questions.length ≤ s.current_question_index + 1
      · rw [if_pos hend]
        refine ⟨by simp [ha], by simp [he], ?_⟩
        simp only []
        constructor
        · intro _; omega
        · intro _; trivial
      · rw [if_neg hend]
        refine ⟨by simp [ha], by simp [he], ?_⟩
        simp only [hfin]
        constructor
        · intro hfalse; cases hfalse
        · intro hc; omega
  | rehydrated s hr ih =>
      simpa [rehydrate] using ih

/-- Witness for the amended C1: the invariant instantiated at the started
one-question session. -/
theorem c1_lifecycle_invariant_amended_witness :
    (startState "w1" [exampleQuestion] "tw").user_answers.length =
      (startState "w1" [exampleQuestion] "tw").current_question_index ∧
    (startState "w1" [exampleQuestion] "tw").evaluations.length =
      (startState "w1" [exampleQuestion] "tw").current_question_index ∧
    ((startState "w1" [exampleQuestion] "tw").interview_finished = true ↔
      ((startState "w1" [exampleQuestion] "tw").current_question_index =
        (startState "w1" [exampleQuestion] "tw").questions.length ∧
       (startState "w1" [exampleQuestion] "tw").questions.length ≠ 0)) :=
  c1_lifecycle_invariant_amended _ (Reachable.started "w1" [exampleQuestion] "tw")

/-- Claim C4 (code bug): with an empty task catalog, `start()` does not
yield a finished session — the stored state keeps `interview_finished` false
(with zero evaluations), and the interview screen's `questions[q_index]`
access is out of bounds on the very next render. -/
theorem c4_empty_catalog_code_bug :
    Reachable (startState "s0" [] "t0") ∧
    (startState "s0" [] "t0").interview_started = true ∧
    (startState "s0" [] "t0").interview_finished = false ∧
    (startState "s0" [] "t0").evaluations = [] ∧
    (startState "s0" [] "t0").questions.length = 0 ∧
    ¬ (startState "s0" [] "t0").current_question_index <
        (startState "s0" [] "t0").questions.length :=
  ⟨Reachable.started "s0" [] "t0", rfl, rfl, rfl, rfl, by decide⟩

/-- Undoing the float64 upcast: numeric cells whose upcasts compare equal
compare equal as written. -/
theorem pyCellEq_toFloat_num (x y : Json) (hx : isNumCell x = true)
    (hy : isNumCell y = true)
    (h : pyCellEq (toFloatCell x) (toFloatCell y) = true) :
    pyCellEq x y = true := by
  cases x <;> cases y <;>
    simp_all [isNumCell, toFloatCell, pyCellEq, Int.cast_inj]

/-- Elementwise version of `pyCellEq_toFloat_num` over whole columns. -/
theorem cellsEq_toFloat (xs ys : List Json) (hx : xs.all isNumCell = true)
    (hy : ys.all isNumCell = true)
    (h : cellsEq (xs.map toFloatCell) (ys.map toFloatCell) = true) :
    cellsEq xs ys = true := by
  simp only [cellsEq, List.length_map, Bool.and_eq_true, beq_iff_eq,
    List.all_eq_true] at h ⊢
  obtain ⟨hlen, hall⟩ := h
  refine ⟨hlen, ?_⟩
  intro p hp
  have hmem : (toFloatCell p.1, toFloatCell p.2) ∈
      (xs.map toFloatCell).zip (ys.map toFloatCell) := by
    rw [List.zip_map]
    exact List.mem_map_of_mem _ hp
  have hxy := List.of_mem_zip hp
  exact pyCellEq_toFloat_num p.1 p.2
    (List.all_eq_true.mp hx p.1 hxy.1)
    (List.all_eq_true.mp hy p.2 hxy.2)
    (hall _ hmem)

/-- Two columns with the same inferred dtype and equal post-inference cells
have cells that compare equal as written in the table. -/
theorem cellsEq_of_inferred (xs ys : List Json)
    (hd : (inferColumn xs).1 = (inferColumn ys).1)
    (hc : cellsEq (inferColumn xs).2 (inferColumn ys).2 = true) :
    cellsEq xs ys = true := by
  by_cases hxi : xs.all isIntCell = true <;>
    by_cases hyi : ys.all isIntCell = true <;>
    by_cases hxn : xs.all isNumCell = true <;>
    by_cases hyn : ys.all isNumCell = true <;>
    by_cases hxb : xs.all isBoolCell = true <;>
    by_cases hyb : ys.all isBoolCell = true <;>
    simp_all [inferColumn] <;>
    exact cellsEq_toFloat xs ys (List.all_eq_true.mpr hxn)
      (List.all_eq_true.mpr hyn) hc

/-- `all` over a mapped list tests the composite predicate. -/
theorem all_map_fun {α β : Type} (f : α → β) (l : List α) (p : β → Bool) :
    (l.map f).all p = l.all (fun a => p (f a)) := by
  induction l with
  | nil => rfl
  | cons a t ih => simp [List.all_cons, ih]

/-- `DataFrame.equals` is at least as strict as the spec's cellwise value
equality: frame equality entails equal labels and cellwise equal values. -/
theorem dfEquals_implies_spec (solution edited : Table)
    (h : dfEquals (mkDF solution) (mkDF edited) = true) :
    specTableEq solution edited = true := by
  simp only [dfEquals, mkDF] at h
  rw [List.zip_map, all_map_fun] at h
  simp only [List.length_map, Bool.and_eq_true, beq_iff_eq,
    List.all_eq_true, Prod.map_fst, Prod.map_snd] at h
  obtain ⟨hlen, hall⟩ := h
  simp only [specTableEq, Bool.and_eq_true, beq_iff_eq, List.all_eq_true]
  refine ⟨hlen, ?_⟩
  intro p hp
  have hcol := hall p hp
  obtain ⟨⟨h1, h2⟩, h3⟩ := hcol
  exact ⟨h1, cellsEq_of_inferred p.1.2 p.2.2 (by simpa using h2) h3⟩

/-- Counterexample to claim C8: on the claim's own focal pair the code
returns false — `DataFrame.equals` compares column dtypes, so the float64
column `[1, 2, 3.0]` differs from the int64 column `[1, 2, 3]` even though
every cell value compares exactly equal under Python `==`. -/
theorem c8_counterexample :
    isStateCorrect [("A", [Json.int 1, Json.int 2, Json.float 3])]
      [("A", [Json.int 1, Json.int 2, Json.int 3])] = false ∧
    specTableEq [("A", [Json.int 1, Json.int 2, Json.float 3])]
      [("A", [Json.int 1, Json.int 2, Json.int 3])] = true := by
  constructor
  · norm_num [isStateCorrect, dfEquals, mkDF, inferColumn, isIntCell,
      isNumCell, isBoolCell, toFloatCell, cellsEq, pyCellEq]
    decide
  · norm_num [specTableEq, cellsEq, pyCellEq]

/-- Claim C8 (corrected): `is_state_correct` is pandas `DataFrame.equals` on
the two constructed frames — same column set and order, every cell value
equal, and additionally the same inferred column dtypes.  It is therefore
strictly stronger than exact per-cell value equality: whenever the code
accepts, the cells are exactly equal, while the pair `[1, 2, 3.0]` versus
`[1, 2, 3]` is rejected on dtype despite exact cellwise value equality. -/
theorem c8_equality_amended (solution edited : Table)
    (h : isStateCorrect solution edited = true) :
    specTableEq solution edited = true :=
  dfEquals_implies_spec solution edited h

/-- Witness for the amended C8: an accepted submission has exactly equal
cells. -/
theorem c8_equality_amended_witness :
    specTableEq [("A", [Json.int 1, Json.int 2])]
      [("A", [Json.int 1, Json.int 2])] = true :=
  c8_equality_amended [("A", [Json.int 1, Json.int 2])]
    [("A", [Json.int 1, Json.int 2])] (by
      norm_num [isStateCorrect, dfEquals, mkDF, inferColumn, isIntCell,
        cellsEq, pyCellEq])

/-- A dumped table decodes back to itself (Pydantic re-validation). -/
theorem tableFieldsRoundTrip (t : Table) :
    parseTableEntries (t.map (fun kv => (kv.1, Json.arr kv.2))) =
      Except.ok t := by
  induction t with
  | nil => rfl
  | cons c cs ih => simp [parseTableEntries, ih]

/-- A dumped table passes the `Dict[str, List[Any]]` validation unchanged. -/
theorem tableRoundTrip (t : Table) :
    parseTableField (some (tableToJson t)) = .ok t := by
  simp only [tableToJson, parseTableField]
  exact tableFieldsRoundTrip t

/-- `Question(**q.model_dump())` reconstructs the same question. -/
theorem questionRoundTrip (q : Question) :
    parseQuestion (questionToJson q) = .ok q := by
  simp [parseQuestion, questionToJson, getField, parseStrField, tableRoundTrip]

/-- `Evaluation(**e.model_dump())` reconstructs the same evaluation when the
stored score satisfies the Pydantic bounds. -/
theorem evaluationRoundTrip (e : Evaluation) (h1 : 1 ≤ e.score)
    (h5 : e.score ≤ 5) :
    parseEvaluationModel (evaluationToJson e) = .ok e := by
  simp [parseEvaluationModel, evaluationToJson, getField, parseScoreField,
    parseBoolFieldE, parseStrField]
  exact ⟨h1, h5⟩

/-- A dumped table decodes back through the untyped reader as well. -/
theorem readTableRoundTrip (t : Table) :
    readTable (tableToJson t) = some t := by
  simp only [tableToJson, readTable]
  induction t with
  | nil => rfl
  | cons c cs ih => simp [readTableEntries, ih]

/-- A stored `user_answers` dict decodes back to itself. -/
theorem userAnswerRoundTrip (a : UserAnswer) :
    readUserAnswer (userAnswerToJson a) = some a := by
  simp [readUserAnswer, userAnswerToJson, getField, readStr, readBool,
    readTableRoundTrip]

/-- Mapping a serializer and then a compatible decoder over a list succeeds
elementwise. -/
theorem decodeList_map {α β : Type} (f : α → Json) (p : Json → Option β)
    (g : α → β) (l : List α) (h : ∀ a ∈ l, p (f a) = some (g a)) :
    decodeList p (l.map f) = some (l.map g) := by
  induction l with
  | nil => rfl
  | cons a t ih =>
      simp only [List.map_cons, decodeList]
      rw [h a (List.mem_cons_self a t),
        ih (fun x hx => h x (List.mem_cons_of_mem a hx))]

/-- The dumped `questions` list re-hydrates to the same questions. -/
theorem decodeQuestions_map (qs : List Question) :
    decodeQuestions (.arr (qs.map questionToJson)) = some qs := by
  simp only [decodeQuestions]
  rw [decodeList_map questionToJson (fun q => (parseQuestion q).toOption) id qs
    (fun a _ => by
      show (parseQuestion (questionToJson a)).toOption = some (id a)
      rw [questionRoundTrip a]
      rfl)]
  simp

/-- The stored `user_answers` list decodes to the same answers. -/
theorem decodeAnswers_map (xs : List UserAnswer) :
    decodeAnswers (.arr (xs.map userAnswerToJson)) = some xs := by
  simp only [decodeAnswers]
  rw [decodeList_map userAnswerToJson readUserAnswer id xs
    (fun a _ => by
      show readUserAnswer (userAnswerToJson a) = some (id a)
      rw [userAnswerRoundTrip a]
      rfl)]
  simp

/-- The stored `evaluations` list (models or dicts alike) re-hydrates to
`Evaluation` model objects with the same fields. -/
theorem decodeEvaluations_map (es : List EvalEntry)
    (h : ∀ e ∈ es, 1 ≤ e.val.score ∧ e.val.score ≤ 5) :
    decodeEvaluations (.arr (es.map evalEntryToJson)) =
      some (es.map (fun e => .model e.val)) := by
  simp only [decodeEvaluations]
  rw [decodeList_map evalEntryToJson
    (fun e => (parseEvaluationModel e).toOption) EvalEntry.val es
    (fun a ha => by
      have hb := h a ha
      have hj : evalEntryToJson a = evaluationToJson a.val := by
        cases a <;> rfl
      show (parseEvaluationModel (evalEntryToJson a)).toOption = some a.val
      rw [hj, evaluationRoundTrip a.val hb.1 hb.2]
      rfl)]
  simp [List.map_map, Function.comp]

/-- Every evaluation a reachable state stores satisfies the Pydantic score
bounds: the lifecycle only ever appends agent-produced `Evaluation`
instances, and re-hydration re-validates them. -/
theorem reachable_scores (s : SessionState) (h : Reachable s) :
    ∀ e ∈ s.evaluations, 1 ≤ e.val.score ∧ e.val.score ≤ 5 := by
  induction h with
  | created sid qs =>
      intro e he
      simp [createNewSession] at he
  | started sid qs t =>
      intro e he
      simp [startState, createNewSession] at he
  | submitted s formula edited ev now hr hst hfin hidx h1 h5 ih =>
      intro e he
      have hq : s.questions[s.current_question_index]? =
          some s.questions[s.current_question_index] :=
        List.getElem?_eq_getElem hidx
      simp only [submitStep, hq] at he
      by_cases hend : s.questions.length ≤ s.current_question_index + 1 <;>
        [rw [if_pos hend] at he; rw [if_neg hend] at he] <;>
        simp only [List.mem_append, List.mem_singleton] at he <;>
        rcases he with he | he
      · exact ih e he
      · rw [he]; exact ⟨h1, h5⟩
      · exact ih e he
      · rw [he]; exact ⟨h1, h5⟩
  | rehydrated s hr ih =>
      intro e he
      simp only [rehydrate, List.mem_map] at he
      obtain ⟨a, ha, rfl⟩ := he
      exact ih a ha

/-- Re-hydration does not change the stored document: dict- and model-shaped
evaluations serialize identically. -/
theorem serializeState_rehydrate (s : SessionState) :
    serializeState (rehydrate s) = serializeState s := by
  have hev : (s.evaluations.map (fun e => EvalEntry.model e.val)).map
      evalEntryToJson = s.evaluations.map evalEntryToJson := by
    rw [List.map_map]
    apply List.map_congr_left
    intro a _
    cases a <;> rfl
  simp only [serializeState, rehydrate, hev]

/-- A stored session document decodes back to the state it was serialized
from, with the evaluations re-hydrated into model objects. -/
theorem stateRoundTrip (s : SessionState)
    (h : ∀ e ∈ s.evaluations, 1 ≤ e.val.score ∧ e.val.score ≤ 5) :
    deserializeState (serializeState s) = some (rehydrate s) := by
  obtain ⟨sid, idx, qs, ans, evs, st, fin, t0, t1⟩ := s
  simp only at h
  cases t0 <;> cases t1 <;>
    simp [serializeState, deserializeState, optField, getField, readStr,
      readNat, readBool, readOptTime, decodeQuestions_map, decodeAnswers_map,
      decodeEvaluations_map _ h, rehydrate, Int.natCast_nonneg,
      Int.toNat_natCast]

/-- Claim C5 (confirmed): for every state the lifecycle stores — evaluations
saved as plain dicts included — a `get` immediately after `put` succeeds and
returns the state with `questions` and `evaluations` re-hydrated into model
objects; the returned value is equal to the stored one modulo the value's
own serialization rules, i.e. it serializes back to the identical stored
document. -/
theorem c5_store_roundtrip (s : SessionState) (h : Reachable s) :
    deserializeState (serializeState s) = some (rehydrate s) ∧
    serializeState (rehydrate s) = serializeState s :=
  ⟨stateRoundTrip s (reachable_scores s h), serializeState_rehydrate s⟩

/-- Witness for C5: the round trip at the started one-question session after
its first submit (whose evaluation is stored as a plain dict). -/
theorem c5_store_roundtrip_witness :
    deserializeState (serializeState (submitStep
      (startState "w5" [exampleQuestion] "tw0") "=SUM(A1:A3)"
      [("A", [Json.int 1, Json.int 2, Json.int 3, Json.int 6])]
      exampleEvaluation "tw1")) =
      some (rehydrate (submitStep
        (startState "w5" [exampleQuestion] "tw0") "=SUM(A1:A3)"
        [("A", [Json.int 1, Json.int 2, Json.int 3, Json.int 6])]
        exampleEvaluation "tw1")) ∧
    serializeState (rehydrate (submitStep
      (startState "w5" [exampleQuestion] "tw0") "=SUM(A1:A3)"
      [("A", [Json.int 1, Json.int 2, Json.int 3, Json.int 6])]
      exampleEvaluation "tw1")) =
      serializeState (submitStep
        (startState "w5" [exampleQuestion] "tw0") "=SUM(A1:A3)"
        [("A", [Json.int 1, Json.int 2, Json.int 3, Json.int 6])]
        exampleEvaluation "tw1") :=
  c5_store_roundtrip _
    (Reachable.submitted (startState "w5" [exampleQuestion] "tw0")
      "=SUM(A1:A3)" [("A", [Json.int 1, Json.int 2, Json.int 3, Json.int 6])]
      exampleEvaluation "tw1"
      (Reachable.started "w5" [exampleQuestion] "tw0") rfl rfl
      (by decide) (by decide) (by decide))

/-- Claim C7 (code bug): for a genuinely reached finished session the report
is never persisted as described.  The state passed to
`save_interview_report` holds re-hydrated `Question` model objects, so
`json.dumps(session_state)` for the `full_transcript` parameter raises
`TypeError` before any row is written (with two or more evaluations,
`e.get('score', 0)` on a re-hydrated `Evaluation` raises `AttributeError`
even earlier); independently, the row's `end_time` parameter is a fresh
`datetime.now().astimezone()`, not the session's recorded `end_time`. -/
theorem c7_report_save_code_bug :
    Reachable (submitStep (startState "s7" [exampleQuestion] "t70")
      "=SUM(A1:A4)" [("A", [Json.int 1, Json.int 2, Json.int 3, Json.int 6])]
      exampleEvaluation "t71") ∧
    (submitStep (startState "s7" [exampleQuestion] "t70")
      "=SUM(A1:A4)" [("A", [Json.int 1, Json.int 2, Json.int 3, Json.int 6])]
      exampleEvaluation "t71").interview_finished = true ∧
    saveInterviewReport (submitStep (startState "s7" [exampleQuestion] "t70")
      "=SUM(A1:A4)" [("A", [Json.int 1, Json.int 2, Json.int 3, Json.int 6])]
      exampleEvaluation "t71") "t72" = .error .typeError :=
  ⟨Reachable.submitted (startState "s7" [exampleQuestion] "t70")
      "=SUM(A1:A4)" [("A", [Json.int 1, Json.int 2, Json.int 3, Json.int 6])]
      exampleEvaluation "t71"
      (Reachable.started "s7" [exampleQuestion] "t70") rfl rfl
      (by decide) (by decide) (by decide),
   rfl, rfl⟩
